import Mathlib

/-!
Verification of the AFRI-INVEST AI dashboard (src/app.py) against its
specification.  The Python script is shallowly embedded: the static lookup
tables become association lists, the external calls (image load, market-data
history fetch, feed parse, radio choice) become explicit parameters gathered
in a `World` record, and the sequence of Streamlit rendering calls becomes a
list of `Widget` values produced by pure functions.
-/

namespace AfriInvest

/-- The list of the country selectbox of `main` (src/app.py, lines 96-100). -/
def countries : List String :=
  ["Nigeria", "South Africa", "Kenya", "Egypt", "Morocco"]

/-- The `tickers` dict of `main` (src/app.py, lines 103-109). -/
def tickers : List (String × String) :=
  [("Nigeria", "^NGXASI"),
   ("South Africa", "^JN0U.JO"),
   ("Kenya", "^NSEI"),
   ("Egypt", "^CASE30"),
   ("Morocco", "^MSI20")]

/-- The `recommendations` dict of `get_recommended_stocks`
(src/app.py, lines 53-59). -/
def recommendations : List (String × (String × String)) :=
  [("Nigeria", ("MTN Nigeria (MTNN.LG)", "Dangote Cement (DANGCEM.LG)")),
   ("South Africa", ("Naspers (NPN.JO)", "MTN Group (MTN.JO)")),
   ("Kenya", ("Safaricom (SCOM.NR)", "Equity Group (EQTY.NR)")),
   ("Egypt", ("Commercial International Bank (COMI.CA)", "EFG Hermes (HRHO.CA)")),
   ("Morocco", ("Maroc Telecom (IAM.CS)", "Attijariwafa Bank (ATW.CS)"))]

/-- Embeds `get_recommended_stocks` (src/app.py, lines 51-60):
`recommendations.get(country, ("Not available", "Not available"))`. -/
def get_recommended_stocks (country : String) : String × String :=
  (List.lookup country recommendations).getD ("Not available", "Not available")

/-- The `news_feeds` dict of `main` (src/app.py, lines 143-149). -/
def news_feeds : List (String × String) :=
  [("Nigeria", "https://feeds.finance.yahoo.com/rss/2.0/headline?s=MTNN.LG&region=US&lang=en-US"),
   ("South Africa", "https://feeds.finance.yahoo.com/rss/2.0/headline?s=^JN0U.JO&region=US&lang=en-US"),
   ("Kenya", "https://feeds.finance.yahoo.com/rss/2.0/headline?s=SCOM.NR&region=US&lang=en-US"),
   ("Egypt", "https://feeds.finance.yahoo.com/rss/2.0/headline?s=COMI.CA&region=US&lang=en-US"),
   ("Morocco", "https://feeds.finance.yahoo.com/rss/2.0/headline?s=IAM.CS&region=US&lang=en-US")]

/-- A pandas DataFrame as the script uses one: a date index (days as
integers) and the Close column. -/
structure DataFrame where
  index : List Int
  close : List Int
deriving Repr, DecidableEq

/-- The pandas `DataFrame.empty` test: true when the frame has no rows. -/
def DataFrame.empty (d : DataFrame) : Bool := d.index.isEmpty

/-- Running sums from an accumulator; helper for `cumsum`. -/
def cumsumFrom (acc : Int) : List Int → List Int
  | [] => []
  | x :: xs => (acc + x) :: cumsumFrom (acc + x) xs

/-- Embeds `np.cumsum` on a list of integers. -/
def cumsum (l : List Int) : List Int := cumsumFrom 0 l

/-- The substitute series built in the empty-result branch of
`get_market_data` (src/app.py, lines 119-123):
`dates = pd.date_range(end=pd.Timestamp.today(), periods=180)` becomes the
180 consecutive days ending `today`, and
`values = np.cumsum(np.random.randn(180)) + 100` becomes the running sums of
the draws `randn 0 .. randn 179` plus 100 (draws modelled as integers, as
their exact distribution is irrelevant to the control flow). -/
def sampleData (today : Int) (randn : Nat → Int) : DataFrame :=
  { index := (List.range 180).map (fun (i : Nat) => today - 179 + (i : Int))
    close := (cumsum ((List.range 180).map randn)).map (fun v => v + 100) }

/-- Python exceptions that surface in the embedding. -/
inductive PyErr
  | nameError
  | keyError
deriving Repr, DecidableEq

/-- One Streamlit rendering call made by the script. -/
inductive Widget
  | logo
  | warning (msg : String)
  | title (s : String)
  | selectbox
  | metric (label value : String)
  | markdown (s : String)
  | headline (t link : String)
  | info (s : String)
  | code (s : String)
  | chart (x y : List Int)
  | expander (s : String)
  | radio
  | success (s : String)
  | error (s : String)
  | caption (s : String)
deriving Repr, DecidableEq

/-- True exactly on `Widget.metric` values. -/
def Widget.isMetric : Widget → Bool
  | Widget.metric _ _ => true
  | _ => false

/-- True exactly on `Widget.chart` values. -/
def Widget.isChart : Widget → Bool
  | Widget.chart _ _ => true
  | _ => false

/-- True exactly on `Widget.headline` values. -/
def Widget.isHeadline : Widget → Bool
  | Widget.headline _ _ => true
  | _ => false

/-- Outcomes of the external calls one page run depends on: whether
`Image.open("logo.png")` succeeds, whether `import feedparser` succeeded,
the result of `feedparser.parse` (entries as (title, link) pairs, or the
message of a raised exception), the result of the yfinance history call,
the current date, the draws of `np.random.randn`, and the choice of the
sentiment radio. -/
structure World where
  logoOk : Bool
  feedparserAvailable : Bool
  feedOutcome : Except String (List (String × String))
  hist : Except String DataFrame
  today : Int
  randn : Nat → Int
  sentiment : String

/-- Embeds `add_logo` (src/app.py, lines 17-49): on success the logo html is
rendered; when `Image.open` raises, the handler renders a warning and the
fallback title. -/
def add_logo (logoOk : Bool) : List Widget :=
  if logoOk then [Widget.logo]
  else [Widget.warning "Logo not found. Using fallback title.",
        Widget.title "AFRI-INVEST AI"]

/-- Embeds `get_market_data` (src/app.py, lines 112-127). The outcome of
`yf.Ticker(ticker).history(period="6mo")` is the parameter `hist`
(`Except.error e` when the call raises with message `e`). The result pairs
the widgets the function renders with its returned value. On the exception
path the handler first renders `st.error` and then executes
`return pd.DataFrame()`; `pd` is a function-local name there, bound only by
the `import pandas as pd` statement inside the empty-result branch, which
cannot have run when the history call raised, so that `return` statement
itself raises `NameError` (UnboundLocalError) instead of returning a frame. -/
def get_market_data (ticker : String) (hist : Except String DataFrame)
    (today : Int) (randn : Nat → Int) : List Widget × Except PyErr DataFrame :=
  match hist with
  | Except.ok data =>
      if data.empty then
        ([Widget.warning ("No data available for " ++ ticker ++ ". Using sample data.")],
         Except.ok (sampleData today randn))
      else ([], Except.ok data)
  | Except.error e =>
      ([Widget.error ("Error fetching data: " ++ e)],
       Except.error PyErr.nameError)

/-- The static news fallback markdown (src/app.py, lines 164-170),
abridged to its first line. -/
def staticNews : String :=
  "🔹 African Markets Show Resilience Amid Global Volatility"

/-- Embeds the news-feed section of `main` (src/app.py, lines 138-170).
When feedparser is importable, `news_feeds[country]` is looked up and parsed
inside a `try` whose handler renders a warning (a missing key would land in
the same handler); an empty feed renders a warning; otherwise at most the
first five entries are rendered as headlines. Without feedparser a static
fallback is rendered. -/
def newsSection (country : String) (w : World) : List Widget :=
  Widget.markdown "### 📰 Latest Market News" ::
    (if w.feedparserAvailable then
      match List.lookup country news_feeds with
      | none => [Widget.warning "⚠️ Could not load news feed: KeyError"]
      | some _ =>
        match w.feedOutcome with
        | Except.error e => [Widget.warning ("⚠️ Could not load news feed: " ++ e)]
        | Except.ok entries =>
          if entries.isEmpty then
            [Widget.warning "No news articles found for this market."]
          else
            (entries.take 5).map (fun e => Widget.headline e.1 e.2)
    else
      [Widget.info "To enable news feeds, please install feedparser package:",
       Widget.code "pip install feedparser",
       Widget.markdown staticNews])

/-- Embeds the AI-insights expander (src/app.py, lines 200-209); the static
text is abridged, the interpolated recommended stocks are kept. -/
def insightsSection (country : String) : List Widget :=
  [Widget.expander "🔍 AI Market Insights",
   Widget.markdown ("**📈 Top Performing Sectors in " ++ country
     ++ "** **💎 Recommended Stocks** 1. " ++ (get_recommended_stocks country).1
     ++ " 2. " ++ (get_recommended_stocks country).2)]

/-- Embeds the learn expander (src/app.py, lines 211-225), static text
abridged. -/
def learnSection : List Widget :=
  [Widget.expander "📘 Learn: Investing in African Markets",
   Widget.markdown "**🌍 What is the NGXASI?**"]

/-- Embeds the `try` body of `main` (src/app.py, lines 86-232): the widgets
rendered, paired with `some err` when an exception escapes to the top-level
handler and `none` when the body completes. Streamlit renders sequentially,
so widgets rendered before a raise stay on the page. The lookup
`tickers[country]` happens in the second metric column (line 134), after the
first metric was rendered; a missing key raises `KeyError` there. -/
def pageBody (country : String) (w : World) : List Widget × Option PyErr :=
  let header := add_logo w.logoOk ++ [Widget.title "AFRI-INVEST AI"]
  let sel := [Widget.selectbox]
  match List.lookup country tickers with
  | none => (header ++ sel ++ [Widget.metric "Selected Market" country],
             some PyErr.keyError)
  | some tk =>
    let metrics := [Widget.metric "Selected Market" country,
                    Widget.metric "Index Symbol" tk,
                    Widget.metric "Period" "6 Months"]
    let news := newsSection country w
    match get_market_data tk w.hist w.today w.randn with
    | (gw, Except.error e) => (header ++ sel ++ metrics ++ news ++ gw, some e)
    | (gw, Except.ok data) =>
        (header ++ sel ++ metrics ++ news ++ gw
           ++ [Widget.chart data.index data.close]
           ++ insightsSection country ++ learnSection
           ++ [Widget.markdown "### 🧠 Market Sentiment", Widget.radio,
               Widget.success ("Your view: " ++ w.sentiment)],
         none)

/-- The top-level error box (src/app.py, lines 234-241), stack trace elided. -/
def appError : Widget := Widget.error "⚠️ Application Error"

/-- The footer caption (src/app.py, line 245). -/
def footer : List Widget :=
  [Widget.markdown "---",
   Widget.caption "© 2024 AFRI-INVEST AI | Data from Yahoo Finance"]

/-- Embeds `main` (src/app.py, lines 85-245): on an exception in the body the
handler renders the error box and `st.stop()` halts the script, so the
footer is only rendered when the body completes. -/
def main (country : String) (w : World) : List Widget :=
  match pageBody country w with
  | (t, none) => t ++ footer
  | (t, some _) => t ++ [appError]

/-- A non-empty frame standing for a successful history result. -/
def dfOk : DataFrame := { index := [0, 1, 2], close := [100, 101, 102] }

/-- A concrete world in which the history call raises. -/
def wExn : World :=
  { logoOk := true, feedparserAvailable := true, feedOutcome := Except.ok []
    hist := Except.error "connection reset", today := 0, randn := fun _ => 0
    sentiment := "📈 Bullish" }

/-- A concrete world with a successful fetch and an empty news feed. -/
def wEmptyFeed : World :=
  { logoOk := true, feedparserAvailable := true, feedOutcome := Except.ok []
    hist := Except.ok dfOk, today := 0, randn := fun _ => 0
    sentiment := "📈 Bullish" }

/-- A concrete world in which the logo load fails and everything else
succeeds. -/
def wLogoFail : World :=
  { logoOk := false, feedparserAvailable := true
    feedOutcome := Except.ok [("African Markets Show Resilience", "https://example.com")]
    hist := Except.ok dfOk, today := 0, randn := fun _ => 0
    sentiment := "📈 Bullish" }

/-- A concrete world in which the logo load, the feed parse and the history
fetch all fail. -/
def wAllFail : World :=
  { logoOk := false, feedparserAvailable := true
    feedOutcome := Except.error "http error"
    hist := Except.error "timeout", today := 0, randn := fun _ => 0
    sentiment := "😐 Neutral" }

end AfriInvest

namespace AfriInvest

lemma cumsumFrom_length (l : List Int) : ∀ acc, (cumsumFrom acc l).length = l.length := by
  induction l with
  | nil => intro acc; rfl
  | cons x xs ih => intro acc; simp [cumsumFrom, ih]

lemma sampleData_index_length (today : Int) (randn : Nat → Int) :
    (sampleData today randn).index.length = 180 := by
  simp only [sampleData, List.length_map, List.length_range]

lemma sampleData_close_length (today : Int) (randn : Nat → Int) :
    (sampleData today randn).close.length = 180 := by
  simp [sampleData, cumsum, cumsumFrom_length]

lemma sampleData_index_getLast (today : Int) (randn : Nat → Int) :
    (sampleData today randn).index.getLast? = some today := by
  have h : (List.range 180).getLast? = some 179 := rfl
  simp [sampleData, List.getLast?_map, h]

lemma sampleData_not_empty (today : Int) (randn : Nat → Int) :
    (sampleData today randn).empty = false := by
  have h := sampleData_index_length today randn
  rcases hi : (sampleData today randn).index with _ | ⟨a, l⟩
  · rw [hi] at h; simp at h
  · simp [DataFrame.empty, hi]

lemma lookup_tickers_of_mem (country : String) (hc : country ∈ countries) :
    ∃ tk, List.lookup country tickers = some tk := by
  simp only [countries, List.mem_cons, List.not_mem_nil, or_false] at hc
  rcases hc with rfl | rfl | rfl | rfl | rfl <;> exact ⟨_, rfl⟩

lemma filter_isMetric_map_headline (l : List (String × String)) :
    (l.map (fun e => Widget.headline e.1 e.2)).filter Widget.isMetric = [] := by
  induction l with
  | nil => rfl
  | cons a l ih => simp [Widget.isMetric, ih]

lemma countP_isChart_map_headline (l : List (String × String)) :
    (l.map (fun e => Widget.headline e.1 e.2)).countP Widget.isChart = 0 := by
  induction l with
  | nil => rfl
  | cons a l ih => simp [List.countP_cons, Widget.isChart, ih]

lemma countP_isHeadline_map (l : List (String × String)) :
    (l.map (fun e => Widget.headline e.1 e.2)).countP Widget.isHeadline = l.length := by
  induction l with
  | nil => rfl
  | cons a l ih => simp [List.countP_cons, Widget.isHeadline, ih]

lemma filter_isMetric_newsSection (c : String) (w : World) :
    (newsSection c w).filter Widget.isMetric = [] := by
  obtain ⟨lOk, fpa, fo, hist, td, rd, sent⟩ := w
  unfold newsSection
  cases fpa
  · simp [Widget.isMetric]
  · rcases hl : List.lookup c news_feeds with _ | url
    · simp [hl, Widget.isMetric]
    · rcases fo with e | entries
      · simp [hl, Widget.isMetric]
      · rcases entries with _ | ⟨a, l⟩
        · simp [hl, Widget.isMetric]
        · simp [hl, Widget.isMetric, filter_isMetric_map_headline]
          intro x hx
          obtain ⟨e, he, rfl⟩ :=
            List.mem_map.mp (List.take_subset _ _ hx)
          rfl

lemma lookup_news_of_mem (country : String) (hc : country ∈ countries) :
    ∃ url, List.lookup country news_feeds = some url := by
  simp only [countries, List.mem_cons, List.not_mem_nil, or_false] at hc
  rcases hc with rfl | rfl | rfl | rfl | rfl <;> exact ⟨_, rfl⟩

lemma filter_isMetric_add_logo (b : Bool) :
    (add_logo b).filter Widget.isMetric = [] := by
  cases b <;> simp [add_logo, Widget.isMetric]

lemma countP_isChart_add_logo (b : Bool) :
    (add_logo b).countP Widget.isChart = 0 := by
  cases b <;> simp [add_logo, List.countP_cons, Widget.isChart]

lemma countP_isChart_newsSection (c : String) (w : World) :
    (newsSection c w).countP Widget.isChart = 0 := by
  obtain ⟨lOk, fpa, fo, hist, td, rd, sent⟩ := w
  unfold newsSection
  cases fpa
  · simp [List.countP_cons, Widget.isChart]
  · rcases hl : List.lookup c news_feeds with _ | url
    · simp [hl, List.countP_cons, Widget.isChart]
    · rcases fo with e | entries
      · simp [hl, List.countP_cons, Widget.isChart]
      · rcases entries with _ | ⟨a, l⟩
        · simp [hl, List.countP_cons, Widget.isChart]
        · simp [hl, List.countP_cons, Widget.isChart, countP_isChart_map_headline]
          intro x hx
          obtain ⟨e, he, rfl⟩ :=
            List.mem_map.mp (List.take_subset _ _ hx)
          rfl

/-- C3: for every enumerated country the ticker table yields a non-empty
ticker string and `get_recommended_stocks` returns the pair stored for that
country in the recommendations dict (exactly two labels). -/
theorem C3_ticker_and_two_recommendations (country : String)
    (hc : country ∈ countries) :
    ∃ tk p, List.lookup country tickers = some tk ∧ tk ≠ ""
      ∧ List.lookup country recommendations = some p
      ∧ get_recommended_stocks country = p := by
  simp only [countries, List.mem_cons, List.not_mem_nil, or_false] at hc
  rcases hc with rfl | rfl | rfl | rfl | rfl <;>
    refine ⟨_, _, rfl, ?_, rfl, rfl⟩ <;> decide

/-- Witness for C3 at the concrete country Nigeria. -/
theorem C3_witness :
    ∃ tk p, List.lookup "Nigeria" tickers = some tk ∧ tk ≠ ""
      ∧ List.lookup "Nigeria" recommendations = some p
      ∧ get_recommended_stocks "Nigeria" = p :=
  C3_ticker_and_two_recommendations "Nigeria" (by decide)

/-- C4: for every enumerated country, each lookup on the static tables
(`tickers[country]`, `news_feeds[country]`, and the recommendations dict used
by `get_recommended_stocks(country)`) succeeds: the key is present. -/
theorem C4_lookups_succeed (country : String) (hc : country ∈ countries) :
    (List.lookup country tickers).isSome = true
    ∧ (List.lookup country news_feeds).isSome = true
    ∧ (List.lookup country recommendations).isSome = true := by
  simp only [countries, List.mem_cons, List.not_mem_nil, or_false] at hc
  rcases hc with rfl | rfl | rfl | rfl | rfl <;> exact ⟨by decide, by decide, by decide⟩

/-- Witness for C4 at the concrete country Egypt. -/
theorem C4_witness :
    (List.lookup "Egypt" tickers).isSome = true
    ∧ (List.lookup "Egypt" news_feeds).isSome = true
    ∧ (List.lookup "Egypt" recommendations).isSome = true :=
  C4_lookups_succeed "Egypt" (by decide)

/-- C6: both static tables have unique keys, their key sets are exactly the
enumerated country list, and every stored value is non-degenerate (each
ticker string and each of the two recommended-stock labels is non-empty).
Constancy holds because both tables are literal definitions. -/
theorem C6_table_invariants :
    tickers.map Prod.fst = countries
    ∧ recommendations.map Prod.fst = countries
    ∧ (tickers.map Prod.fst).Nodup
    ∧ (recommendations.map Prod.fst).Nodup
    ∧ tickers.all (fun p => !(p.2 == "")) = true
    ∧ recommendations.all (fun p => !(p.2.1 == "") && !(p.2.2 == "")) = true := by
  refine ⟨by decide, by decide, by decide, by decide, by decide, by decide⟩

/-- C9: `get_recommended_stocks` is total; outside the enumerated key set it
returns the default pair from `dict.get`. -/
theorem C9_default_outside_table (country : String) (h : country ∉ countries) :
    get_recommended_stocks country = ("Not available", "Not available") := by
  simp only [countries, List.mem_cons, List.not_mem_nil, or_false, not_or] at h
  obtain ⟨h1, h2, h3, h4, h5⟩ := h
  have e1 : (country == "Nigeria") = false := beq_eq_false_iff_ne.mpr h1
  have e2 : (country == "South Africa") = false := beq_eq_false_iff_ne.mpr h2
  have e3 : (country == "Kenya") = false := beq_eq_false_iff_ne.mpr h3
  have e4 : (country == "Egypt") = false := beq_eq_false_iff_ne.mpr h4
  have e5 : (country == "Morocco") = false := beq_eq_false_iff_ne.mpr h5
  simp [get_recommended_stocks, recommendations, List.lookup, e1, e2, e3, e4, e5]

/-- Witness for C9 at the concrete out-of-table input France. -/
theorem C9_witness :
    get_recommended_stocks "France" = ("Not available", "Not available") :=
  C9_default_outside_table "France" (by decide)

/-- C1: when the market-data query returns an empty result, `get_market_data`
returns the substitute series: 180 rows, one Close value per date, dates
ending today, hence non-empty. -/
theorem C1_empty_result_substitute (ticker : String) (df : DataFrame)
    (h : df.empty = true) (today : Int) (randn : Nat → Int) :
    (get_market_data ticker (Except.ok df) today randn).2
        = Except.ok (sampleData today randn)
    ∧ (sampleData today randn).index.length = 180
    ∧ (sampleData today randn).close.length = 180
    ∧ (sampleData today randn).index.getLast? = some today
    ∧ (sampleData today randn).empty = false := by
  refine ⟨?_, sampleData_index_length today randn, sampleData_close_length today randn,
    sampleData_index_getLast today randn, sampleData_not_empty today randn⟩
  simp [get_market_data, h]

/-- Witness for C1 at a concrete empty frame. -/
theorem C1_witness :
    (get_market_data "^NGXASI" (Except.ok (DataFrame.mk [] [])) 0 (fun _ => 1)).2
        = Except.ok (sampleData 0 (fun _ => 1))
    ∧ (sampleData 0 (fun _ => 1)).index.length = 180
    ∧ (sampleData 0 (fun _ => 1)).close.length = 180
    ∧ (sampleData 0 (fun _ => 1)).index.getLast? = some 0
    ∧ (sampleData 0 (fun _ => 1)).empty = false :=
  C1_empty_result_substitute "^NGXASI" (DataFrame.mk [] []) rfl 0 (fun _ => 1)

/-- C8: when the history fetch raises, the handler of `get_market_data` does
not return an empty frame: `pd` is unbound there, so the function itself
errors with `NameError`; in `main` that error reaches the top-level handler,
whose error box is the last widget rendered. -/
theorem C8_handler_raises_nameError (ticker e : String) (today : Int)
    (randn : Nat → Int) (country : String) (hc : country ∈ countries)
    (w : World) (hh : w.hist = Except.error e) :
    (get_market_data ticker (Except.error e) today randn).2
        = Except.error PyErr.nameError
    ∧ (get_market_data ticker (Except.error e) today randn).2
        ≠ Except.ok (DataFrame.mk [] [])
    ∧ (main country w).getLast? = some appError := by
  obtain ⟨tk, htk⟩ := lookup_tickers_of_mem country hc
  refine ⟨rfl, by simp [get_market_data], ?_⟩
  simp only [main, pageBody, htk, hh, get_market_data]
  exact List.getLast?_concat _

/-- Witness for C8 at the concrete world `wExn`. -/
theorem C8_witness :
    (get_market_data "^NGXASI" (Except.error "connection reset") 0 (fun _ => 0)).2
        = Except.error PyErr.nameError
    ∧ (get_market_data "^NGXASI" (Except.error "connection reset") 0 (fun _ => 0)).2
        ≠ Except.ok (DataFrame.mk [] [])
    ∧ (main "Nigeria" wExn).getLast? = some appError :=
  C8_handler_raises_nameError "^NGXASI" "connection reset" 0 (fun _ => 0)
    "Nigeria" (by decide) wExn rfl

/-- C2 counterexample: with the history call raising (world `wExn`),
`get_market_data` returns no series at all (it errors), and the rendered
page contains no chart, so it is not the case that on every outcome of the
external call a non-empty series is passed to the chart. -/
theorem C2_counterexample :
    (get_market_data "^NGXASI" (Except.error "connection reset") 0 (fun _ => 0)).2
        = Except.error PyErr.nameError
    ∧ (main "Nigeria" wExn).countP Widget.isChart = 0 :=
  ⟨rfl, rfl⟩

/-- C2 amended: when the market-data call returns rows or no rows the chart
receives a non-empty series (the fetched frame, or the 180-row substitute);
when the call raises, no chart is rendered at all: the fetch error escapes
`get_market_data` and the top-level handler halts rendering. -/
theorem C2_amended_chart_never_empty (country : String)
    (hc : country ∈ countries) (w : World) :
    (∀ df, w.hist = Except.ok df → df.close.length = df.index.length →
      ∃ x y, Widget.chart x y ∈ main country w ∧ y ≠ [])
    ∧ (∀ e, w.hist = Except.error e →
      (main country w).countP Widget.isChart = 0) := by
  obtain ⟨tk, htk⟩ := lookup_tickers_of_mem country hc
  constructor
  · intro df hdf hlen
    by_cases hde : df.empty = true
    · refine ⟨(sampleData w.today w.randn).index, (sampleData w.today w.randn).close,
        ?_, ?_⟩
      · simp [main, pageBody, htk, hdf, get_market_data, hde]
      · have hl := sampleData_close_length w.today w.randn
        intro hnil
        rw [hnil] at hl
        simp at hl
    · have hde' : df.empty = false := by simpa using hde
      refine ⟨df.index, df.close, ?_, ?_⟩
      · simp [main, pageBody, htk, hdf, get_market_data, hde']
      · have hi : df.index ≠ [] := by
          intro hnil
          simp [DataFrame.empty, hnil] at hde'
        intro hnil
        rw [hnil] at hlen
        exact hi (List.length_eq_zero.mp hlen.symm)
  · intro e he
    simp [main, pageBody, htk, he, get_market_data, List.countP_append,
      countP_isChart_newsSection, countP_isChart_add_logo, List.countP_cons,
      Widget.isChart, appError]

/-- Witness for C2 at the concrete world `wEmptyFeed` with frame `dfOk`. -/
theorem C2_witness :
    ∃ x y, Widget.chart x y ∈ main "Nigeria" wEmptyFeed ∧ y ≠ [] :=
  (C2_amended_chart_never_empty "Nigeria" (by decide) wEmptyFeed).1 dfOk rfl rfl

/-- C7: whatever the outcomes of the external calls, the page for an
enumerated country renders exactly three metrics: the selected market name,
the ticker symbol of that country, and the fixed period label 6 Months. -/
theorem C7_exactly_three_metrics (country : String) (hc : country ∈ countries)
    (w : World) :
    (main country w).filter Widget.isMetric
      = [Widget.metric "Selected Market" country,
         Widget.metric "Index Symbol" ((List.lookup country tickers).getD ""),
         Widget.metric "Period" "6 Months"] := by
  obtain ⟨tk, htk⟩ := lookup_tickers_of_mem country hc
  rw [htk]
  rcases hh : w.hist with e | df
  · simp [main, pageBody, htk, hh, get_market_data, List.filter_append,
      filter_isMetric_newsSection, filter_isMetric_add_logo, Widget.isMetric,
      appError, footer]
  · by_cases hde : df.empty = true
    · simp [main, pageBody, htk, hh, get_market_data, hde, List.filter_append,
        filter_isMetric_newsSection, filter_isMetric_add_logo, Widget.isMetric,
        insightsSection, learnSection, appError, footer]
    · have hde' : df.empty = false := by simpa using hde
      simp [main, pageBody, htk, hh, get_market_data, hde', List.filter_append,
        filter_isMetric_newsSection, filter_isMetric_add_logo, Widget.isMetric,
        insightsSection, learnSection, appError, footer]

/-- Witness for C7 at the concrete country Kenya and world `wEmptyFeed`. -/
theorem C7_witness :
    (main "Kenya" wEmptyFeed).filter Widget.isMetric
      = [Widget.metric "Selected Market" "Kenya",
         Widget.metric "Index Symbol" ((List.lookup "Kenya" tickers).getD ""),
         Widget.metric "Period" "6 Months"] :=
  C7_exactly_three_metrics "Kenya" (by decide) wEmptyFeed

/-- C5 counterexample: in the world `wLogoFail` an exception is raised inside
the page body (the logo load fails), yet the page recovers: the local handler
renders a warning and a fallback title, rendering continues to the footer,
and the top-level error box never appears. So the top-level handler is not
the only handling and errors inside the body can be recovered. -/
theorem C5_counterexample :
    Widget.warning "Logo not found. Using fallback title." ∈ main "Nigeria" wLogoFail
    ∧ Widget.caption "© 2024 AFRI-INVEST AI | Data from Yahoo Finance"
        ∈ main "Nigeria" wLogoFail
    ∧ appError ∉ main "Nigeria" wLogoFail := by
  refine ⟨?_, ?_, ?_⟩ <;> decide

/-- C5 amended: the page body is wrapped in one broad top-level handler that
renders the error box last and halts when an exception escapes the body, but
it is not the only handling: the logo loader, the market-data fetch and the
news-feed parse each have a local handler, and the logo and news handlers
recover (render a fallback or warning and continue). -/
theorem C5_amended_error_handling (country : String) (hc : country ∈ countries)
    (w : World) :
    (∀ e, w.hist = Except.error e →
        (main country w).getLast? = some appError
        ∧ Widget.error ("Error fetching data: " ++ e) ∈ main country w)
    ∧ (w.logoOk = false →
        Widget.warning "Logo not found. Using fallback title." ∈ main country w
        ∧ Widget.title "AFRI-INVEST AI" ∈ main country w)
    ∧ (∀ e, w.feedparserAvailable = true → w.feedOutcome = Except.error e →
        Widget.warning ("⚠️ Could not load news feed: " ++ e) ∈ main country w) := by
  obtain ⟨tk, htk⟩ := lookup_tickers_of_mem country hc
  obtain ⟨url, hurl⟩ := lookup_news_of_mem country hc
  refine ⟨?_, ?_, ?_⟩
  · intro e he
    constructor
    · simp only [main, pageBody, htk, he, get_market_data]
      exact List.getLast?_concat _
    · simp [main, pageBody, htk, he, get_market_data]
  · intro hlo
    constructor <;>
    · rcases hh : w.hist with e | df
      · simp [main, pageBody, htk, hh, get_market_data, add_logo, hlo]
      · by_cases hde : df.empty = true
        · simp [main, pageBody, htk, hh, get_market_data, add_logo, hlo, hde]
        · have hde' : df.empty = false := by simpa using hde
          simp [main, pageBody, htk, hh, get_market_data, add_logo, hlo, hde']
  · intro e hfp hfo
    rcases hh : w.hist with e2 | df
    · simp [main, pageBody, htk, hh, get_market_data, newsSection, hfp, hfo, hurl]
    · by_cases hde : df.empty = true
      · simp [main, pageBody, htk, hh, get_market_data, newsSection, hfp, hfo,
          hurl, hde]
      · have hde' : df.empty = false := by simpa using hde
        simp [main, pageBody, htk, hh, get_market_data, newsSection, hfp, hfo,
          hurl, hde']

/-- Witness for C5 at the concrete world `wAllFail`. -/
theorem C5_witness :
    ((main "Morocco" wAllFail).getLast? = some appError
      ∧ Widget.error ("Error fetching data: " ++ "timeout") ∈ main "Morocco" wAllFail)
    ∧ (Widget.warning "Logo not found. Using fallback title." ∈ main "Morocco" wAllFail
      ∧ Widget.title "AFRI-INVEST AI" ∈ main "Morocco" wAllFail)
    ∧ Widget.warning ("⚠️ Could not load news feed: " ++ "http error")
        ∈ main "Morocco" wAllFail := by
  obtain ⟨h1, h2, h3⟩ := C5_amended_error_handling "Morocco" (by decide) wAllFail
  exact ⟨h1 "timeout" rfl, h2 rfl, h3 "http error" rfl rfl⟩

/-- C10: the news section renders at most five headlines however many
entries the feed has, and with no entries it renders the no-articles warning
instead of any headline. -/
theorem C10_at_most_five_headlines (country : String) (w : World)
    (hfp : w.feedparserAvailable = true) (url : String)
    (hurl : List.lookup country news_feeds = some url)
    (entries : List (String × String)) (hfo : w.feedOutcome = Except.ok entries) :
    (newsSection country w).countP Widget.isHeadline ≤ 5
    ∧ (entries = [] → newsSection country w
        = [Widget.markdown "### 📰 Latest Market News",
           Widget.warning "No news articles found for this market."]) := by
  constructor
  · rcases entries with _ | ⟨a, l⟩
    · simp [newsSection, hfp, hurl, hfo, List.countP_cons, Widget.isHeadline]
    · have h1 := countP_isHeadline_map ((a :: l).take 5)
      have h2 : ((a :: l).take 5).length ≤ 5 := List.length_take_le _ _
      simp only [newsSection, hfp, hurl, hfo, if_true, List.isEmpty_cons,
        Bool.false_eq_true, if_false, List.countP_cons, Widget.isHeadline, h1]
      simp
  · intro h
    subst h
    simp [newsSection, hfp, hurl, hfo]

/-- Witness for C10 at the concrete country Nigeria with an empty feed. -/
theorem C10_witness :
    (newsSection "Nigeria" wEmptyFeed).countP Widget.isHeadline ≤ 5
    ∧ (([] : List (String × String)) = [] → newsSection "Nigeria" wEmptyFeed
        = [Widget.markdown "### 📰 Latest Market News",
           Widget.warning "No news articles found for this market."]) :=
  C10_at_most_five_headlines "Nigeria" wEmptyFeed rfl
    "https://feeds.finance.yahoo.com/rss/2.0/headline?s=MTNN.LG&region=US&lang=en-US"
    rfl [] rfl

end AfriInvest
